import Mathlib

/-!
Shallow embedding of `ezgui/src/drawing.rs` from the abstreet repository:
the per-frame graphics context `GfxCtx`, its camera-transform uniforms
(`fork`, `fork_screenspace`, `unfork`), its shape-drawing operations, and
its instrumentation counters.

Modelling choices:
* Machine floats (`f64`, `f32`) are modelled as `ℚ`; the `as f32` cast is
  modelled by `asF32` (the identity on values — only which expressions flow
  into which fields is relevant to the properties proved here, not rounding).
* The `geom` crate's tessellation functions (`Line::make_polygons`,
  `Line::make_arrow`, `Circle::to_polygon`) are external to the source file;
  they are abstract parameters (`GeomOps`), and the polygon type itself is a
  type parameter `P`.
* The `glium` frame is modelled as a log of issued draw calls and clears
  plus an external oracle `gpuFail` saying whether the n-th draw call of the
  frame fails on the GPU. `Frame::draw(..).unwrap()` panicking is modelled
  by the operations returning `Option` (`none` = process abort).
-/

namespace Drawing

/-- Model of the Rust `as f32` cast. Rounding is not modelled: the cast is
the identity on the rational value. -/
def asF32 (q : ℚ) : ℚ := q

/-- `geom::Pt2D`: a point in map space (fields accessed via `x()`/`y()`). -/
structure Pt2D where
  x : ℚ
  y : ℚ
deriving DecidableEq, Repr

/-- `ezgui::ScreenPt`: a point in screen space. -/
structure ScreenPt where
  x : ℚ
  y : ℚ
deriving DecidableEq, Repr

/-- `geom::Line`: a segment with endpoints `pt1()` and `pt2()`. -/
structure Line where
  pt1 : Pt2D
  pt2 : Pt2D
deriving DecidableEq, Repr

/-- `geom::Circle::new(center, radius)`. -/
structure Circle where
  center : Pt2D
  radius : ℚ
deriving DecidableEq, Repr

/-- `ezgui::Color(pub [f32; 4])`. -/
structure Color where
  r : ℚ
  g : ℚ
  b : ℚ
  a : ℚ
deriving DecidableEq, Repr

/-- The fields of `ezgui::Canvas` that `drawing.rs` reads: the persistent
camera (`cam_x`, `cam_y`, `cam_zoom`) and the window size. All are `f64`
in the source. -/
structure Canvas where
  cam_x : ℚ
  cam_y : ℚ
  cam_zoom : ℚ
  window_width : ℚ
  window_height : ℚ
deriving DecidableEq, Repr

/-- The `Uniforms` alias of `drawing.rs`: a `transform: [f32; 3]` uniform
(camera x-offset, y-offset, zoom) and a `window: [f32; 2]` uniform. -/
structure Uniforms where
  transform : ℚ × ℚ × ℚ
  window : ℚ × ℚ
deriving DecidableEq, Repr

/-- `glium` blend modes that appear in the source: the default, and
`Blend::alpha_blending()` chosen by `GfxCtx::new`. -/
inductive Blend where
  | default_blend : Blend
  | alpha_blending : Blend
deriving DecidableEq, Repr

/-- The part of `glium::DrawParameters` the source sets: the blend mode
(everything else is `..Default::default()`). -/
structure DrawParameters where
  blend : Blend
deriving DecidableEq, Repr

/-- `ezgui::Drawable`: an uploaded vertex/index buffer pair. Modelled by
the geometry list it was built from (the upload itself is external). -/
structure Drawable (P : Type) where
  geometry : List (Color × P)
deriving DecidableEq, Repr

/-- `ezgui::Prerender`, holding a display handle. -/
structure Prerender where
  display : ℕ
deriving DecidableEq, Repr

/-- `Prerender::upload_borrowed(list)`: uploads a `(Color, &Polygon)` list
to the GPU, producing a `Drawable`. The GPU upload is external; the model
records exactly the list that was uploaded. -/
def Prerender.upload_borrowed {P : Type} (_pre : Prerender) (list : List (Color × P)) :
    Drawable P :=
  ⟨list⟩

/-- One draw call issued against the frame: the geometry drawn and the
shader program, uniforms and draw parameters bound for the call. -/
structure DrawCall (P : Type) where
  geometry : List (Color × P)
  uniforms : Uniforms
  params : DrawParameters
  program : ℕ
deriving DecidableEq, Repr

/-- `glium::Frame`: the per-frame render target. `gpuFail n` is the
external GPU's verdict on the n-th draw call of the frame (`true` = the
underlying `Surface::draw` returns `Err`); `drawLog` the draw calls issued
so far, `clearLog` the clear colors issued so far. -/
structure Frame (P : Type) where
  gpuFail : ℕ → Bool
  drawLog : List (DrawCall P)
  clearLog : List Color

/-- The external tessellation functions of the `geom` crate used by
`drawing.rs`; they are not part of the source file, so they are abstract
parameters of the model. -/
structure GeomOps (P : Type) where
  make_polygons : Line → ℚ → P
  make_arrow : Line → ℚ → List P
  to_polygon : Circle → ℕ → P

/-- `const TRIANGLES_PER_CIRCLE: usize = 60`. -/
def TRIANGLES_PER_CIRCLE : ℕ := 60

/-- `ezgui::GfxCtx`, parametric in the polygon type `P`. `display` and
`program` are opaque handles. -/
structure GfxCtx (P : Type) where
  display : ℕ
  target : Frame P
  program : ℕ
  uniforms : Uniforms
  params : DrawParameters
  canvas : Canvas
  num_new_uploads : ℕ
  num_draw_calls : ℕ

namespace GfxCtx

variable {P : Type}

/-- `GfxCtx::new(canvas, display, target, program)`: alpha blending, the
canvas's persistent camera as the transform uniform, the window size, and
zeroed counters. -/
def new (canvas : Canvas) (display : ℕ) (target : Frame P) (program : ℕ) :
    GfxCtx P :=
  { display := display
    target := target
    program := program
    uniforms :=
      { transform := (asF32 canvas.cam_x, asF32 canvas.cam_y, asF32 canvas.cam_zoom)
        window := (asF32 canvas.window_width, asF32 canvas.window_height) }
    params := { blend := Blend.alpha_blending }
    canvas := canvas
    num_new_uploads := 0
    num_draw_calls := 0 }

/-- `GfxCtx::fork(top_left_map, top_left_screen, zoom)`: recompute the
camera offset so that `top_left_map` renders at `top_left_screen` at the
given zoom, and install it as the transform uniform. -/
def fork (g : GfxCtx P) (top_left_map : Pt2D) (top_left_screen : ScreenPt)
    (zoom : ℚ) : GfxCtx P :=
  let cam_x := top_left_map.x * zoom - top_left_screen.x
  let cam_y := top_left_map.y * zoom - top_left_screen.y
  { g with
    uniforms :=
      { transform := (asF32 cam_x, asF32 cam_y, asF32 zoom)
        window := (asF32 g.canvas.window_width, asF32 g.canvas.window_height) } }

/-- `GfxCtx::fork_screenspace()`: install the identity screen-space
transform `[0.0, 0.0, 1.0]`. -/
def fork_screenspace (g : GfxCtx P) : GfxCtx P :=
  { g with
    uniforms :=
      { transform := (0, 0, 1)
        window := (asF32 g.canvas.window_width, asF32 g.canvas.window_height) } }

/-- `GfxCtx::unfork()`: restore the transform from the canvas's persistent
camera state. -/
def unfork (g : GfxCtx P) : GfxCtx P :=
  { g with
    uniforms :=
      { transform :=
          (asF32 g.canvas.cam_x, asF32 g.canvas.cam_y, asF32 g.canvas.cam_zoom)
        window := (asF32 g.canvas.window_width, asF32 g.canvas.window_height) } }

/-- `GfxCtx::clear(color)`: `target.clear_color_srgb(...)` with the
color's four components. -/
def clear (g : GfxCtx P) (color : Color) : GfxCtx P :=
  { g with target := { g.target with clearLog := g.target.clearLog ++ [color] } }

/-- `GfxCtx::redraw(obj)`: issue `target.draw(...)` with the current
program, uniforms and params, `.unwrap()` the result (panic = `none`),
then `num_draw_calls += 1`. -/
def redraw (g : GfxCtx P) (obj : Drawable P) : Option (GfxCtx P) :=
  if g.target.gpuFail g.target.drawLog.length then
    none
  else
    some
      { g with
        target :=
          { g.target with
            drawLog := g.target.drawLog ++
              [{ geometry := obj.geometry
                 uniforms := g.uniforms
                 params := g.params
                 program := g.program }] }
        num_draw_calls := g.num_draw_calls + 1 }

/-- `GfxCtx::draw_polygon(color, poly)`: upload the single-polygon list,
`num_new_uploads += 1`, then `redraw`. -/
def draw_polygon (g : GfxCtx P) (color : Color) (poly : P) : Option (GfxCtx P) :=
  let obj := Prerender.upload_borrowed ⟨g.display⟩ [(color, poly)]
  redraw { g with num_new_uploads := g.num_new_uploads + 1 } obj

/-- `GfxCtx::draw_polygon_batch(list)`: upload the whole list at once,
`num_new_uploads += 1`, then `redraw`. -/
def draw_polygon_batch (g : GfxCtx P) (list : List (Color × P)) :
    Option (GfxCtx P) :=
  let obj := Prerender.upload_borrowed ⟨g.display⟩ list
  redraw { g with num_new_uploads := g.num_new_uploads + 1 } obj

/-- `GfxCtx::draw_line(color, thickness, line)`:
`draw_polygon(color, line.make_polygons(thickness))`. -/
def draw_line (g : GfxCtx P) (geom : GeomOps P) (color : Color) (thickness : ℚ)
    (line : Line) : Option (GfxCtx P) :=
  g.draw_polygon color (geom.make_polygons line thickness)

/-- `GfxCtx::draw_rounded_line(color, thickness, line)`: one batch of the
thick line body plus two end-cap circles of radius `thickness / 2.0`. -/
def draw_rounded_line (g : GfxCtx P) (geom : GeomOps P) (color : Color)
    (thickness : ℚ) (line : Line) : Option (GfxCtx P) :=
  g.draw_polygon_batch
    [(color, geom.make_polygons line thickness),
     (color, geom.to_polygon ⟨line.pt1, thickness / 2⟩ TRIANGLES_PER_CIRCLE),
     (color, geom.to_polygon ⟨line.pt2, thickness / 2⟩ TRIANGLES_PER_CIRCLE)]

/-- `GfxCtx::draw_arrow(color, thickness, line)`: one batch pairing the
color with every polygon of `line.make_arrow(thickness)`. -/
def draw_arrow (g : GfxCtx P) (geom : GeomOps P) (color : Color) (thickness : ℚ)
    (line : Line) : Option (GfxCtx P) :=
  g.draw_polygon_batch ((geom.make_arrow line thickness).map fun poly => (color, poly))

/-- `GfxCtx::draw_circle(color, circle)`:
`draw_polygon(color, circle.to_polygon(TRIANGLES_PER_CIRCLE))`. -/
def draw_circle (g : GfxCtx P) (geom : GeomOps P) (color : Color)
    (circle : Circle) : Option (GfxCtx P) :=
  g.draw_polygon color (geom.to_polygon circle TRIANGLES_PER_CIRCLE)

end GfxCtx

/-- The camera-forking operations of `GfxCtx` (the ones that replace the
transform uniform without drawing): `fork` and `fork_screenspace`. -/
inductive ForkOp where
  | fork (m : Pt2D) (s : ScreenPt) (z : ℚ)
  | fork_screenspace
deriving Repr

/-- Apply one camera-forking operation. -/
def applyForkOp {P : Type} (g : GfxCtx P) : ForkOp → GfxCtx P
  | ForkOp.fork m s z => g.fork m s z
  | ForkOp.fork_screenspace => g.fork_screenspace

/-- Apply a sequence of camera-forking operations, first to last. -/
def applyForkOps {P : Type} (g : GfxCtx P) : List ForkOp → GfxCtx P
  | [] => g
  | op :: rest => applyForkOps (applyForkOp g op) rest

/-- The drawing operations of `GfxCtx` (the ones that upload geometry
and/or issue draw calls), plus `clear`. -/
inductive DrawOp (P : Type) where
  | clear (c : Color)
  | draw_line (c : Color) (t : ℚ) (l : Line)
  | draw_rounded_line (c : Color) (t : ℚ) (l : Line)
  | draw_arrow (c : Color) (t : ℚ) (l : Line)
  | draw_circle (c : Color) (circ : Circle)
  | draw_polygon (c : Color) (p : P)
  | draw_polygon_batch (list : List (Color × P))
  | redraw (obj : Drawable P)

/-- Apply one drawing operation (`none` = the process aborted because the
underlying GPU draw call failed). -/
def applyDrawOp {P : Type} (geom : GeomOps P) (g : GfxCtx P) :
    DrawOp P → Option (GfxCtx P)
  | DrawOp.clear c => some (g.clear c)
  | DrawOp.draw_line c t l => g.draw_line geom c t l
  | DrawOp.draw_rounded_line c t l => g.draw_rounded_line geom c t l
  | DrawOp.draw_arrow c t l => g.draw_arrow geom c t l
  | DrawOp.draw_circle c circ => g.draw_circle geom c circ
  | DrawOp.draw_polygon c p => g.draw_polygon c p
  | DrawOp.draw_polygon_batch list => g.draw_polygon_batch list
  | DrawOp.redraw obj => g.redraw obj

/-- Apply a sequence of drawing operations, first to last, aborting on the
first GPU failure. -/
def applyDrawOps {P : Type} (geom : GeomOps P) :
    List (DrawOp P) → GfxCtx P → Option (GfxCtx P)
  | [], g => some g
  | op :: rest, g => (applyDrawOp geom g op).bind (applyDrawOps geom rest)

/-- All operations of `GfxCtx`: the camera-forking operations, `unfork`,
the drawing operations, and the forwarding accessors.

The `forward` constructor is modelled from the spec: the bodies of the
canvas methods (`Canvas::draw_blocking_text`, `draw_text_at`,
`draw_text_at_screenspace_topleft`, `draw_mouse_tooltip`) are not part of
the source file. Per the spec they "delegate entirely to the canvas,
passing `self` so the canvas can recursively draw using this same
context", and the transform is "mutated only via explicit fork/unfork
calls"; so a forwarding call is modelled as the canvas recursively
applying some sequence of the context's own drawing operations. -/
inductive Op (P : Type) where
  | fork (m : Pt2D) (s : ScreenPt) (z : ℚ)
  | fork_screenspace
  | unfork
  | draw (d : DrawOp P)
  | forward (ds : List (DrawOp P))

/-- Whether an operation is one of the three camera-transform operations
`fork`, `fork_screenspace`, `unfork`. -/
def Op.isCameraOp {P : Type} : Op P → Bool
  | Op.fork _ _ _ => true
  | Op.fork_screenspace => true
  | Op.unfork => true
  | Op.draw _ => false
  | Op.forward _ => false

/-- Apply one `GfxCtx` operation. -/
def applyOp {P : Type} (geom : GeomOps P) (g : GfxCtx P) :
    Op P → Option (GfxCtx P)
  | Op.fork m s z => some (g.fork m s z)
  | Op.fork_screenspace => some g.fork_screenspace
  | Op.unfork => some g.unfork
  | Op.draw d => applyDrawOp geom g d
  | Op.forward ds => applyDrawOps geom ds g

/-- Apply a sequence of `GfxCtx` operations, first to last. -/
def applyOps {P : Type} (geom : GeomOps P) :
    List (Op P) → GfxCtx P → Option (GfxCtx P)
  | [], g => some g
  | op :: rest, g => (applyOp geom g op).bind (applyOps geom rest)

/-- The three transform states a `GfxCtx` may be in: the canvas's
persistent camera, a temporarily forked camera (the `fork` formula at some
arguments), or the identity screen-space transform. -/
def transformStates (c : Canvas) (t : ℚ × ℚ × ℚ) : Prop :=
  t = (asF32 c.cam_x, asF32 c.cam_y, asF32 c.cam_zoom) ∨
  (∃ m : Pt2D, ∃ s : ScreenPt, ∃ z : ℚ,
      t = (asF32 (m.x * z - s.x), asF32 (m.y * z - s.y), asF32 z)) ∨
  t = (0, 0, 1)

/-! ### Concrete sample values (used only to instantiate theorems) -/

/-- A sample canvas. -/
def sampleCanvas : Canvas := ⟨1, 2, 3, 800, 600⟩

/-- A sample frame whose GPU accepts every draw call. -/
def sampleFrame : Frame ℕ := ⟨fun _ => false, [], []⟩

/-- A sample frame whose GPU rejects every draw call. -/
def failFrame : Frame ℕ := ⟨fun _ => true, [], []⟩

/-- Sample tessellation functions over `P := ℕ` (polygons as handles). -/
def sampleGeom : GeomOps ℕ := ⟨fun _ _ => 0, fun _ _ => [1, 2, 3], fun _ _ => 4⟩

/-- A sample color. -/
def sampleColor : Color := ⟨1, 0, 0, 1⟩

/-- A sample line. -/
def sampleLine : Line := ⟨⟨0, 0⟩, ⟨10, 0⟩⟩

/-- A sample circle. -/
def sampleCircle : Circle := ⟨⟨5, 5⟩, 2⟩

/-- A freshly constructed context over the healthy frame. -/
def sampleCtx : GfxCtx ℕ := GfxCtx.new sampleCanvas 0 sampleFrame 0

/-- A freshly constructed context over the failing frame. -/
def failCtx : GfxCtx ℕ := GfxCtx.new sampleCanvas 0 failFrame 0

/-! ## Helper lemmas -/

/-- Camera-forking operations never change the canvas reference. -/
theorem applyForkOps_canvas {P : Type} (g : GfxCtx P) (ops : List ForkOp) :
    (applyForkOps g ops).canvas = g.canvas := by
  induction ops generalizing g with
  | nil => rfl
  | cons op rest ih =>
      cases op <;>
        simp [applyForkOps, applyForkOp, GfxCtx.fork, GfxCtx.fork_screenspace, ih]

/-- Characterisation of a successful `redraw`: the GPU accepted the draw
call, the call was appended to the frame's log, `num_draw_calls` was
incremented, and nothing else changed. -/
theorem redraw_some {P : Type} {g g' : GfxCtx P} {obj : Drawable P}
    (h : g.redraw obj = some g') :
    g.target.gpuFail g.target.drawLog.length = false ∧
    g' = { g with
            target :=
              { g.target with
                drawLog := g.target.drawLog ++
                  [{ geometry := obj.geometry
                     uniforms := g.uniforms
                     params := g.params
                     program := g.program }] }
            num_draw_calls := g.num_draw_calls + 1 } := by
  unfold GfxCtx.redraw at h
  split at h
  · exact absurd h (by simp)
  · rename_i hfail
    exact ⟨Bool.of_not_eq_true hfail, (Option.some.inj h).symm⟩

/-- A successful drawing operation leaves the uniforms, canvas, draw
parameters, program and display untouched. -/
theorem applyDrawOp_preserves {P : Type} {geom : GeomOps P} {g g' : GfxCtx P}
    {d : DrawOp P} (h : applyDrawOp geom g d = some g') :
    g'.uniforms = g.uniforms ∧ g'.canvas = g.canvas ∧ g'.params = g.params ∧
    g'.program = g.program ∧ g'.display = g.display := by
  cases d <;>
    simp only [applyDrawOp, GfxCtx.draw_line, GfxCtx.draw_rounded_line,
      GfxCtx.draw_arrow, GfxCtx.draw_circle, GfxCtx.draw_polygon,
      GfxCtx.draw_polygon_batch, GfxCtx.clear] at h
  case clear => cases h; exact ⟨rfl, rfl, rfl, rfl, rfl⟩
  all_goals
    obtain ⟨-, rfl⟩ := redraw_some h
    exact ⟨rfl, rfl, rfl, rfl, rfl⟩

/-- A successful sequence of drawing operations leaves the uniforms,
canvas, draw parameters, program and display untouched. -/
theorem applyDrawOps_preserves {P : Type} {geom : GeomOps P} {g g' : GfxCtx P}
    {ds : List (DrawOp P)} (h : applyDrawOps geom ds g = some g') :
    g'.uniforms = g.uniforms ∧ g'.canvas = g.canvas ∧ g'.params = g.params ∧
    g'.program = g.program ∧ g'.display = g.display := by
  induction ds generalizing g with
  | nil => cases h; exact ⟨rfl, rfl, rfl, rfl, rfl⟩
  | cons d rest ih =>
      simp only [applyDrawOps, Option.bind_eq_some] at h
      obtain ⟨gmid, hd, hrest⟩ := h
      obtain ⟨h1, h2, h3, h4, h5⟩ := applyDrawOp_preserves hd
      obtain ⟨k1, k2, k3, k4, k5⟩ := ih hrest
      exact ⟨k1.trans h1, k2.trans h2, k3.trans h3, k4.trans h4, k5.trans h5⟩

/-- No operation changes the canvas reference. -/
theorem applyOp_canvas {P : Type} {geom : GeomOps P} {g g' : GfxCtx P}
    {op : Op P} (h : applyOp geom g op = some g') : g'.canvas = g.canvas := by
  cases op
  case fork m s z => cases h; rfl
  case fork_screenspace => cases h; rfl
  case unfork => cases h; rfl
  case draw d => exact (applyDrawOp_preserves h).2.1
  case forward ds => exact (applyDrawOps_preserves h).2.1

/-! ## Claim theorems -/

/-- C1: after `fork(top_left_map, top_left_screen, zoom)` the active
transform is exactly `(top_left_map.x * zoom - top_left_screen.x,
top_left_map.y * zoom - top_left_screen.y, zoom)` cast to f32, whatever
transform was active before. -/
theorem fork_sets_transform {P : Type} (g : GfxCtx P) (top_left_map : Pt2D)
    (top_left_screen : ScreenPt) (zoom : ℚ) :
    (g.fork top_left_map top_left_screen zoom).uniforms.transform =
      (asF32 (top_left_map.x * zoom - top_left_screen.x),
       asF32 (top_left_map.y * zoom - top_left_screen.y),
       asF32 zoom) := rfl

/-- C2: after any sequence of `fork` / `fork_screenspace` calls followed by
a single `unfork`, the active transform is the canvas's persistent camera
`(cam_x, cam_y, cam_zoom)` cast to f32 — the same value it has immediately
after construction via `new`. -/
theorem unfork_restores_canvas_camera {P : Type} (canvas : Canvas)
    (dis : ℕ) (t : Frame P) (pr : ℕ) (ops : List ForkOp) :
    ((applyForkOps (GfxCtx.new canvas dis t pr) ops).unfork).uniforms.transform
      = (asF32 canvas.cam_x, asF32 canvas.cam_y, asF32 canvas.cam_zoom) ∧
    (GfxCtx.new canvas dis t pr).uniforms.transform
      = (asF32 canvas.cam_x, asF32 canvas.cam_y, asF32 canvas.cam_zoom) := by
  refine ⟨?_, rfl⟩
  have hc : (applyForkOps (GfxCtx.new canvas dis t pr) ops).canvas = canvas :=
    applyForkOps_canvas (GfxCtx.new canvas dis t pr) ops
  simp [GfxCtx.unfork, hc]

/-- C3: after `fork_screenspace` the active transform is exactly offset
`(0, 0)` and zoom `1`, regardless of the prior state. -/
theorem fork_screenspace_identity {P : Type} (g : GfxCtx P) :
    (g.fork_screenspace).uniforms.transform = (0, 0, 1) := rfl

/-- C7: `fork` has a side effect only on the uniform state: the canvas
reference, both counters, the draw parameters, the render target, the
shader program and the display handle are all unchanged. -/
theorem fork_only_touches_uniforms {P : Type} (g : GfxCtx P)
    (top_left_map : Pt2D) (top_left_screen : ScreenPt) (zoom : ℚ) :
    (g.fork top_left_map top_left_screen zoom).canvas = g.canvas ∧
    (g.fork top_left_map top_left_screen zoom).num_new_uploads = g.num_new_uploads ∧
    (g.fork top_left_map top_left_screen zoom).num_draw_calls = g.num_draw_calls ∧
    (g.fork top_left_map top_left_screen zoom).params = g.params ∧
    (g.fork top_left_map top_left_screen zoom).target = g.target ∧
    (g.fork top_left_map top_left_screen zoom).program = g.program ∧
    (g.fork top_left_map top_left_screen zoom).display = g.display :=
  ⟨rfl, rfl, rfl, rfl, rfl, rfl, rfl⟩

/-- C4: each of the six shape-drawing operations, when the underlying GPU
draw call succeeds, increments `num_new_uploads` by exactly 1 and
`num_draw_calls` by exactly 1 (hence by at least 1). -/
theorem draw_ops_increment_counters {P : Type} (geom : GeomOps P)
    (g : GfxCtx P) (c : Color) (t : ℚ) (l : Line) (circ : Circle) (p : P)
    (list : List (Color × P))
    (h : g.target.gpuFail g.target.drawLog.length = false) :
    ((g.draw_line geom c t l).map fun g' => (g'.num_new_uploads, g'.num_draw_calls))
        = some (g.num_new_uploads + 1, g.num_draw_calls + 1) ∧
    ((g.draw_rounded_line geom c t l).map fun g' => (g'.num_new_uploads, g'.num_draw_calls))
        = some (g.num_new_uploads + 1, g.num_draw_calls + 1) ∧
    ((g.draw_arrow geom c t l).map fun g' => (g'.num_new_uploads, g'.num_draw_calls))
        = some (g.num_new_uploads + 1, g.num_draw_calls + 1) ∧
    ((g.draw_circle geom c circ).map fun g' => (g'.num_new_uploads, g'.num_draw_calls))
        = some (g.num_new_uploads + 1, g.num_draw_calls + 1) ∧
    ((g.draw_polygon c p).map fun g' => (g'.num_new_uploads, g'.num_draw_calls))
        = some (g.num_new_uploads + 1, g.num_draw_calls + 1) ∧
    ((g.draw_polygon_batch list).map fun g' => (g'.num_new_uploads, g'.num_draw_calls))
        = some (g.num_new_uploads + 1, g.num_draw_calls + 1) := by
  refine ⟨?_, ?_, ?_, ?_, ?_, ?_⟩ <;>
    simp [GfxCtx.draw_line, GfxCtx.draw_rounded_line, GfxCtx.draw_arrow,
      GfxCtx.draw_circle, GfxCtx.draw_polygon, GfxCtx.draw_polygon_batch,
      GfxCtx.redraw, Prerender.upload_borrowed, h]

/-- Witness for C4 at concrete inputs. -/
theorem draw_ops_increment_counters_witness :
    sampleCtx.target.gpuFail sampleCtx.target.drawLog.length = false ∧
    ((sampleCtx.draw_line sampleGeom sampleColor 5 sampleLine).map
        fun g' => (g'.num_new_uploads, g'.num_draw_calls)) = some (1, 1) :=
  ⟨rfl,
   (draw_ops_increment_counters sampleGeom sampleCtx sampleColor 5 sampleLine
      sampleCircle 7 [(sampleColor, 9)] rfl).1⟩

/-- C5: `draw_rounded_line` issues exactly one batched upload-and-draw
call whose geometry list is exactly the thick line body plus two end-cap
circles of radius `thickness / 2` at the line's endpoints, all in the
given color. -/
theorem draw_rounded_line_single_batch {P : Type} (geom : GeomOps P)
    (g : GfxCtx P) (c : Color) (t : ℚ) (l : Line)
    (h : g.target.gpuFail g.target.drawLog.length = false) :
    ((g.draw_rounded_line geom c t l).map
        fun g' => (g'.num_new_uploads, g'.num_draw_calls, g'.target.drawLog)) =
      some (g.num_new_uploads + 1, g.num_draw_calls + 1,
        g.target.drawLog ++
          [{ geometry :=
               [(c, geom.make_polygons l t),
                (c, geom.to_polygon ⟨l.pt1, t / 2⟩ TRIANGLES_PER_CIRCLE),
                (c, geom.to_polygon ⟨l.pt2, t / 2⟩ TRIANGLES_PER_CIRCLE)]
             uniforms := g.uniforms
             params := g.params
             program := g.program }]) := by
  simp [GfxCtx.draw_rounded_line, GfxCtx.draw_polygon_batch, GfxCtx.redraw,
    Prerender.upload_borrowed, h]

/-- Witness for C5 at concrete inputs. -/
theorem draw_rounded_line_single_batch_witness :
    sampleCtx.target.gpuFail sampleCtx.target.drawLog.length = false ∧
    ((sampleCtx.draw_rounded_line sampleGeom sampleColor 5 sampleLine).map
        fun g' => (g'.num_new_uploads, g'.num_draw_calls, g'.target.drawLog)) =
      some (1, 1,
        sampleCtx.target.drawLog ++
          [{ geometry :=
               [(sampleColor, sampleGeom.make_polygons sampleLine 5),
                (sampleColor,
                 sampleGeom.to_polygon ⟨sampleLine.pt1, 5 / 2⟩ TRIANGLES_PER_CIRCLE),
                (sampleColor,
                 sampleGeom.to_polygon ⟨sampleLine.pt2, 5 / 2⟩ TRIANGLES_PER_CIRCLE)]
             uniforms := sampleCtx.uniforms
             params := sampleCtx.params
             program := sampleCtx.program }]) :=
  ⟨rfl,
   draw_rounded_line_single_batch sampleGeom sampleCtx sampleColor 5 sampleLine rfl⟩

/-- C6: `draw_arrow` performs exactly one batched upload containing all
polygons of `line.make_arrow(thickness)`, each paired with the given
color, and issues exactly one draw call — never one per polygon. -/
theorem draw_arrow_single_batch {P : Type} (geom : GeomOps P) (g : GfxCtx P)
    (c : Color) (t : ℚ) (l : Line)
    (h : g.target.gpuFail g.target.drawLog.length = false) :
    ((g.draw_arrow geom c t l).map
        fun g' => (g'.num_new_uploads, g'.num_draw_calls, g'.target.drawLog)) =
      some (g.num_new_uploads + 1, g.num_draw_calls + 1,
        g.target.drawLog ++
          [{ geometry := (geom.make_arrow l t).map fun poly => (c, poly)
             uniforms := g.uniforms
             params := g.params
             program := g.program }]) := by
  simp [GfxCtx.draw_arrow, GfxCtx.draw_polygon_batch, GfxCtx.redraw,
    Prerender.upload_borrowed, h]

/-- Witness for C6 at concrete inputs (a 3-polygon arrow glyph still
yields one upload and one draw call). -/
theorem draw_arrow_single_batch_witness :
    sampleCtx.target.gpuFail sampleCtx.target.drawLog.length = false ∧
    ((sampleCtx.draw_arrow sampleGeom sampleColor 5 sampleLine).map
        fun g' => (g'.num_new_uploads, g'.num_draw_calls, g'.target.drawLog)) =
      some (1, 1,
        sampleCtx.target.drawLog ++
          [{ geometry :=
               (sampleGeom.make_arrow sampleLine 5).map fun poly => (sampleColor, poly)
             uniforms := sampleCtx.uniforms
             params := sampleCtx.params
             program := sampleCtx.program }]) :=
  ⟨rfl, draw_arrow_single_batch sampleGeom sampleCtx sampleColor 5 sampleLine rfl⟩

/-- C8: `redraw` aborts (panics) exactly when the underlying GPU draw call
fails, and that is the only failure path: a drawing operation aborts only
because of the GPU verdict on its draw call, and the camera-transform
operations never abort. No operation returns a recoverable error value —
the only outcomes are success and abort. -/
theorem redraw_failure_is_abort {P : Type} :
    (∀ (g : GfxCtx P) (obj : Drawable P),
        g.redraw obj = none ↔ g.target.gpuFail g.target.drawLog.length = true) ∧
    (∀ (geom : GeomOps P) (g : GfxCtx P) (d : DrawOp P),
        applyDrawOp geom g d = none →
          g.target.gpuFail g.target.drawLog.length = true) ∧
    (∀ (geom : GeomOps P) (g : GfxCtx P) (op : Op P),
        Op.isCameraOp op = true → applyOp geom g op ≠ none) := by
  have hredraw : ∀ (g : GfxCtx P) (obj : Drawable P),
      g.redraw obj = none ↔ g.target.gpuFail g.target.drawLog.length = true := by
    intro g obj
    unfold GfxCtx.redraw
    split <;> simp_all
  refine ⟨hredraw, ?_, ?_⟩
  · intro geom g d h
    cases d <;>
      simp only [applyDrawOp, GfxCtx.draw_line, GfxCtx.draw_rounded_line,
        GfxCtx.draw_arrow, GfxCtx.draw_circle, GfxCtx.draw_polygon,
        GfxCtx.draw_polygon_batch, GfxCtx.clear] at h
    case clear => exact absurd h (by simp)
    all_goals
      have h2 := (hredraw _ _).mp h
      exact h2
  · intro geom g op hop
    cases op <;> simp_all [applyOp, Op.isCameraOp]

/-- Witness for C8 at concrete inputs: on the failing frame,
`draw_polygon` aborts and the GPU verdict is indeed failure; and
`fork_screenspace` (a camera operation) never aborts. -/
theorem redraw_failure_is_abort_witness :
    applyDrawOp sampleGeom failCtx (DrawOp.draw_polygon sampleColor 3) = none ∧
    failCtx.target.gpuFail failCtx.target.drawLog.length = true ∧
    Op.isCameraOp (Op.fork_screenspace : Op ℕ) = true ∧
    applyOp sampleGeom failCtx Op.fork_screenspace ≠ none :=
  ⟨rfl,
   (@redraw_failure_is_abort ℕ).2.1 sampleGeom failCtx
     (DrawOp.draw_polygon sampleColor 3) rfl,
   rfl,
   (@redraw_failure_is_abort ℕ).2.2 sampleGeom failCtx Op.fork_screenspace rfl⟩

/-- No successful operation sequence changes the canvas reference. -/
theorem applyOps_canvas {P : Type} {geom : GeomOps P} {g g' : GfxCtx P}
    {ops : List (Op P)} (h : applyOps geom ops g = some g') :
    g'.canvas = g.canvas := by
  induction ops generalizing g with
  | nil => cases h; rfl
  | cons op rest ih =>
      simp only [applyOps, Option.bind_eq_some] at h
      obtain ⟨gmid, hop, hrest⟩ := h
      exact (ih hrest).trans (applyOp_canvas hop)

/-- One step preserves the three-state transform invariant. -/
theorem applyOp_transformStates {P : Type} {geom : GeomOps P}
    {g g' : GfxCtx P} {op : Op P} (h : applyOp geom g op = some g')
    (hg : transformStates g.canvas g.uniforms.transform) :
    transformStates g'.canvas g'.uniforms.transform := by
  cases op
  case fork m s z => cases h; exact Or.inr (Or.inl ⟨m, s, z, rfl⟩)
  case fork_screenspace => cases h; exact Or.inr (Or.inr rfl)
  case unfork => cases h; exact Or.inl rfl
  case draw d =>
      obtain ⟨h1, h2, -⟩ := applyDrawOp_preserves h
      rw [h1, h2]; exact hg
  case forward ds =>
      obtain ⟨h1, h2, -⟩ := applyDrawOps_preserves h
      rw [h1, h2]; exact hg

/-- A successful operation sequence preserves the three-state transform
invariant. -/
theorem applyOps_transformStates {P : Type} {geom : GeomOps P}
    {g g' : GfxCtx P} {ops : List (Op P)} (h : applyOps geom ops g = some g')
    (hg : transformStates g.canvas g.uniforms.transform) :
    transformStates g'.canvas g'.uniforms.transform := by
  induction ops generalizing g with
  | nil => cases h; exact hg
  | cons op rest ih =>
      simp only [applyOps, Option.bind_eq_some] at h
      obtain ⟨gmid, hop, hrest⟩ := h
      exact ih hrest (applyOp_transformStates hop hg)

/-- One step preserves the window-uniform invariant. -/
theorem applyOp_window {P : Type} {geom : GeomOps P} {g g' : GfxCtx P}
    {op : Op P} (h : applyOp geom g op = some g')
    (hg : g.uniforms.window =
      (asF32 g.canvas.window_width, asF32 g.canvas.window_height)) :
    g'.uniforms.window =
      (asF32 g'.canvas.window_width, asF32 g'.canvas.window_height) := by
  cases op
  case fork m s z => cases h; rfl
  case fork_screenspace => cases h; rfl
  case unfork => cases h; rfl
  case draw d =>
      obtain ⟨h1, h2, -⟩ := applyDrawOp_preserves h
      rw [h1, h2]; exact hg
  case forward ds =>
      obtain ⟨h1, h2, -⟩ := applyDrawOps_preserves h
      rw [h1, h2]; exact hg

/-- A successful operation sequence preserves the window-uniform
invariant. -/
theorem applyOps_window {P : Type} {geom : GeomOps P} {g g' : GfxCtx P}
    {ops : List (Op P)} (h : applyOps geom ops g = some g')
    (hg : g.uniforms.window =
      (asF32 g.canvas.window_width, asF32 g.canvas.window_height)) :
    g'.uniforms.window =
      (asF32 g'.canvas.window_width, asF32 g'.canvas.window_height) := by
  induction ops generalizing g with
  | nil => cases h; exact hg
  | cons op rest ih =>
      simp only [applyOps, Option.bind_eq_some] at h
      obtain ⟨gmid, hop, hrest⟩ := h
      exact ih hrest (applyOp_window hop hg)

/-- C9: in every state reachable from construction by any operation
sequence, the transform uniform is the canvas's persistent camera, a
forked camera (the `fork` formula at some arguments), or the identity
screen-space transform; and no operation other than `fork`,
`fork_screenspace` and `unfork` changes the uniforms. -/
theorem transform_invariant {P : Type} :
    (∀ (geom : GeomOps P) (canvas : Canvas) (dis : ℕ) (t : Frame P) (pr : ℕ)
        (ops : List (Op P)) (g : GfxCtx P),
        applyOps geom ops (GfxCtx.new canvas dis t pr) = some g →
          transformStates canvas g.uniforms.transform) ∧
    (∀ (geom : GeomOps P) (g g' : GfxCtx P) (op : Op P),
        Op.isCameraOp op = false → applyOp geom g op = some g' →
          g'.uniforms = g.uniforms) := by
  constructor
  · intro geom canvas dis t pr ops g h
    have hcv : g.canvas = canvas := applyOps_canvas h
    have hstart :
        transformStates (GfxCtx.new canvas dis t pr).canvas
          (GfxCtx.new canvas dis t pr).uniforms.transform := Or.inl rfl
    have := applyOps_transformStates h hstart
    rwa [hcv] at this
  · intro geom g g' op hop h
    cases op
    case fork m s z => simp [Op.isCameraOp] at hop
    case fork_screenspace => simp [Op.isCameraOp] at hop
    case unfork => simp [Op.isCameraOp] at hop
    case draw d => exact (applyDrawOp_preserves h).1
    case forward ds => exact (applyDrawOps_preserves h).1

/-- Witness for C9 at concrete inputs: after `fork_screenspace` from a
fresh context the invariant names the identity transform, and a draw
operation leaves the uniforms unchanged. -/
theorem transform_invariant_witness :
    applyOps sampleGeom [Op.fork_screenspace] sampleCtx
        = some sampleCtx.fork_screenspace ∧
    transformStates sampleCanvas sampleCtx.fork_screenspace.uniforms.transform ∧
    Op.isCameraOp (Op.draw (DrawOp.clear sampleColor) : Op ℕ) = false ∧
    (sampleCtx.clear sampleColor).uniforms = sampleCtx.uniforms :=
  ⟨rfl,
   (@transform_invariant ℕ).1 sampleGeom sampleCanvas 0 sampleFrame 0
     [Op.fork_screenspace] sampleCtx.fork_screenspace rfl,
   rfl,
   (@transform_invariant ℕ).2 sampleGeom sampleCtx (sampleCtx.clear sampleColor)
     (Op.draw (DrawOp.clear sampleColor)) rfl rfl⟩

/-- C10: in every state reachable from construction by any operation
sequence — including after `fork` and `fork_screenspace` — the window
component of the uniforms equals `(canvas.window_width,
canvas.window_height)` cast to f32. -/
theorem window_invariant {P : Type} (geom : GeomOps P) (canvas : Canvas)
    (dis : ℕ) (t : Frame P) (pr : ℕ) (ops : List (Op P)) (g : GfxCtx P)
    (h : applyOps geom ops (GfxCtx.new canvas dis t pr) = some g) :
    g.uniforms.window = (asF32 canvas.window_width, asF32 canvas.window_height) := by
  have hcv : g.canvas = canvas := applyOps_canvas h
  have := applyOps_window h rfl
  rwa [hcv] at this

/-- Witness for C10 at concrete inputs: after a `fork` the window uniform
still equals the canvas's window size. -/
theorem window_invariant_witness :
    applyOps sampleGeom [Op.fork ⟨1, 2⟩ ⟨3, 4⟩ 5] sampleCtx
        = some (sampleCtx.fork ⟨1, 2⟩ ⟨3, 4⟩ 5) ∧
    (sampleCtx.fork ⟨1, 2⟩ ⟨3, 4⟩ 5).uniforms.window
        = (asF32 sampleCanvas.window_width, asF32 sampleCanvas.window_height) :=
  ⟨rfl,
   window_invariant sampleGeom sampleCanvas 0 sampleFrame 0
     [Op.fork ⟨1, 2⟩ ⟨3, 4⟩ 5] (sampleCtx.fork ⟨1, 2⟩ ⟨3, 4⟩ 5) rfl⟩

end Drawing
